import Mathlib

/-!
Verification of the OAuth2 callback core of the `kiro-hello-world-rust` SSO web
application, as a shallow embedding in Lean.

The embedding translates the Rust source under `src/`:
- `src/src/models.rs`   — `User`, `CreateUser`, `SessionData`
- `src/src/error.rs`    — `AuthError`, the user-facing message mapping
- `src/src/auth.rs`     — profile types, `initiate_microsoft_auth`,
  `handle_microsoft_callback`, `handle_github_callback`
- `src/src/database.rs` — `UserRepository` (`find_by_provider_id`,
  `create_user`, `update_last_login`) over a concrete in-memory table model
- `src/src/handlers.rs` — `microsoft_callback_handler`, `github_callback_handler`

Outward effects (the provider token-exchange and profile HTTP calls, and the
storage layer where failures matter) are modelled by environments that fix the
outcome of each call; the provider network calls a run performs are collected
into an explicit trace so that ordering properties are statable.
-/

set_option autoImplicit false

/-- Model of the `User` row, from `src/src/models.rs`. Timestamps (`chrono::DateTime<Utc>`)
are modelled as `Nat` instants; `id` (`i64`) as `Int`. -/
structure User where
  id : Int
  provider : String
  provider_id : String
  username : String
  email : Option String
  avatar_url : Option String
  created_at : Nat
  last_login : Nat
deriving DecidableEq

/-- Model of `CreateUser`, from `src/src/models.rs`. -/
structure CreateUser where
  provider : String
  provider_id : String
  username : String
  email : Option String
  avatar_url : Option String
deriving DecidableEq

/-- Model of `SessionData`, from `src/src/models.rs`. -/
structure SessionData where
  user_id : Int
  username : String
  provider : String
deriving DecidableEq

/-- Model of `AuthError`, from `src/src/error.rs` lines 29-54. -/
inductive AuthError where
  | StateMismatch
  | TokenExchange (msg : String)
  | ProfileFetch (msg : String)
  | NotAuthenticated
  | InvalidProvider (msg : String)
  | MissingAuthCode
  | SessionExpired
  | InvalidSession
deriving DecidableEq

/-- Model of `AppError`, from `src/src/error.rs`. Only the `Auth` variant can arise in
the handler paths modelled here (session-store operations, whose failures the
source maps to `AppError::Auth(AuthError::InvalidSession)`, are modelled as
infallible in-memory state). -/
inductive AppError where
  | Auth (e : AuthError)
deriving DecidableEq

/-- The user-facing message chosen for an OAuth2 `AuthError` by
`AppError::into_response`, `src/src/error.rs` lines 70-77.  The catch-all arm
covers the variants (`NotAuthenticated`, `SessionExpired`, `InvalidSession`)
that the source redirects without a message before reaching this match. -/
def auth_error_user_message (e : AuthError) : String :=
  match e with
  | .StateMismatch => "Security error during login. Please try again."
  | .TokenExchange _ => "Failed to complete login. Please try again."
  | .ProfileFetch _ => "Failed to retrieve your profile. Please try again."
  | .InvalidProvider _ => "Invalid login provider selected."
  | .MissingAuthCode => "Login was incomplete. Please try again."
  | _ => "Authentication failed. Please try again."

/-- Model of `MicrosoftUserProfile`, from `src/src/auth.rs` lines 109-117. -/
structure MicrosoftUserProfile where
  id : String
  display_name : Option String
  user_principal_name : Option String
  mail : Option String
deriving DecidableEq

/-- Model of `GitHubUserProfile`, from `src/src/auth.rs` lines 120-127.  The `u64` id is
modelled as `Nat`; `toString` agrees with Rust `to_string` on the `u64` range. -/
structure GitHubUserProfile where
  id : Nat
  login : String
  name : Option String
  email : Option String
  avatar_url : Option String
deriving DecidableEq

/-- Model of `GitHubEmail`, from `src/src/auth.rs` lines 130-135. -/
structure GitHubEmail where
  email : String
  primary : Bool
  verified : Bool
deriving DecidableEq

/-- The token-exchange request built by `oauth2::Client::exchange_code`:
the authorization code, plus the PKCE verifier if one was attached with
`set_pkce_verifier` (the source never attaches one, see `src/src/auth.rs`
lines 150-156 and 232-238). -/
structure ExchangeRequest where
  code : String
  pkce_verifier : Option String
deriving DecidableEq

/-- A network call to the identity provider made while handling a callback. -/
inductive NetworkCall where
  | token_exchange (req : ExchangeRequest)
  | profile_fetch
  | emails_fetch
deriving DecidableEq

/-- Outcome of one HTTP fetch as the source distinguishes the stages:
`.send` failing, a non-2xx status, the body failing to parse, or a value. -/
inductive FetchResult (α : Type) where
  | send_error (msg : String)
  | http_failure (status : String)
  | parse_error (msg : String)
  | success (value : α)
deriving DecidableEq

/-- Outcomes of the `UserRepository` operations (`src/src/database.rs`) as seen
by one callback run; each operation may fail with a storage error string. -/
structure RepoEnv where
  find_by_provider_id : String → String → Except String (Option User)
  update_last_login : Int → Except String Unit
  create_user : CreateUser → Except String User

/-- Environment fixing the outcomes of the outward provider calls made by
`handle_microsoft_callback`. -/
structure MsCallbackEnv where
  token_exchange : Except String String
  profile_fetch : FetchResult MicrosoftUserProfile
  repo : RepoEnv

/-- Environment fixing the outcomes of the outward provider calls made by
`handle_github_callback`. -/
structure GhCallbackEnv where
  token_exchange : Except String String
  profile_fetch : FetchResult GitHubUserProfile
  emails_fetch : FetchResult (List GitHubEmail)
  repo : RepoEnv

/-- The `CreateUser` value built for a new Microsoft account,
`src/src/auth.rs` lines 198-207. -/
def microsoft_create_user (profile : MicrosoftUserProfile) : CreateUser :=
  { provider := "microsoft"
    provider_id := profile.id
    username := (profile.display_name.or profile.user_principal_name).getD "Microsoft User"
    email := profile.mail
    avatar_url := none }

/-- The `CreateUser` value built for a new GitHub account,
`src/src/auth.rs` lines 307-313. -/
def github_create_user (profile : GitHubUserProfile) : CreateUser :=
  { provider := "github"
    provider_id := toString profile.id
    username := profile.name.getD profile.login
    email := profile.email
    avatar_url := profile.avatar_url }

/-- The account-resolution block of `handle_microsoft_callback`,
`src/src/auth.rs` lines 183-215, over the repository outcomes `repo`. -/
def resolve_user_microsoft (repo : RepoEnv) (profile : MicrosoftUserProfile) :
    Except AuthError User :=
  match repo.find_by_provider_id "microsoft" profile.id with
  | .ok (some existing_user) =>
    match repo.update_last_login existing_user.id with
    | .ok _ => .ok existing_user
    | .error e => .error (.ProfileFetch e)
  | .ok none =>
    match repo.create_user (microsoft_create_user profile) with
    | .ok user => .ok user
    | .error e => .error (.ProfileFetch e)
  | .error e => .error (.ProfileFetch e)

/-- The account-resolution block of `handle_github_callback`,
`src/src/auth.rs` lines 292-321, over the repository outcomes `repo`. -/
def resolve_user_github (repo : RepoEnv) (profile : GitHubUserProfile) :
    Except AuthError User :=
  match repo.find_by_provider_id "github" (toString profile.id) with
  | .ok (some existing_user) =>
    match repo.update_last_login existing_user.id with
    | .ok _ => .ok existing_user
    | .error e => .error (.ProfileFetch e)
  | .ok none =>
    match repo.create_user (github_create_user profile) with
    | .ok user => .ok user
    | .error e => .error (.ProfileFetch e)
  | .error e => .error (.ProfileFetch e)

/-- The body of the secondary email fetch of `handle_github_callback`,
`src/src/auth.rs` lines 266-289 (entered only when the profile email is
absent): a transport or parse failure is a `ProfileFetch` error, a non-2xx
status silently leaves the email unset, and otherwise the entry with
`primary && verified` is selected. -/
def fetch_primary_verified_email (emails_fetch : FetchResult (List GitHubEmail)) :
    Except AuthError (Option String) :=
  match emails_fetch with
  | .send_error e => .error (.ProfileFetch e)
  | .http_failure _ => .ok none
  | .parse_error e => .error (.ProfileFetch e)
  | .success emails =>
    .ok ((emails.find? (fun em => em.primary && em.verified)).map GitHubEmail.email)

/-- The email-resolution step of `handle_github_callback`,
`src/src/auth.rs` lines 265-289: the emails endpoint is consulted only when
the primary profile omits the email. -/
def resolve_github_email (profile : GitHubUserProfile)
    (emails_fetch : FetchResult (List GitHubEmail)) :
    Except AuthError GitHubUserProfile :=
  if profile.email.isNone then
    (fetch_primary_verified_email emails_fetch).map (fun e => { profile with email := e })
  else
    .ok profile

/-- Model of `AuthService::handle_microsoft_callback`, `src/src/auth.rs` lines 138-218,
returning the result together with the trace of provider network calls made. -/
def handle_microsoft_callback (env : MsCallbackEnv)
    (code state expected_csrf_token : String) :
    Except AuthError User × List NetworkCall :=
  if state ≠ expected_csrf_token then
    (.error .StateMismatch, [])
  else
    let req : ExchangeRequest := { code := code, pkce_verifier := none }
    match env.token_exchange with
    | .error e => (.error (.TokenExchange e), [.token_exchange req])
    | .ok _access_token =>
      match env.profile_fetch with
      | .send_error e =>
        (.error (.ProfileFetch e), [.token_exchange req, .profile_fetch])
      | .http_failure status =>
        (.error (.ProfileFetch ("HTTP " ++ status)), [.token_exchange req, .profile_fetch])
      | .parse_error e =>
        (.error (.ProfileFetch e), [.token_exchange req, .profile_fetch])
      | .success profile =>
        (resolve_user_microsoft env.repo profile, [.token_exchange req, .profile_fetch])

/-- Model of `AuthService::handle_github_callback`, `src/src/auth.rs` lines 220-324,
returning the result together with the trace of provider network calls made. -/
def handle_github_callback (env : GhCallbackEnv)
    (code state expected_csrf_token : String) :
    Except AuthError User × List NetworkCall :=
  if state ≠ expected_csrf_token then
    (.error .StateMismatch, [])
  else
    let req : ExchangeRequest := { code := code, pkce_verifier := none }
    match env.token_exchange with
    | .error e => (.error (.TokenExchange e), [.token_exchange req])
    | .ok _access_token =>
      match env.profile_fetch with
      | .send_error e =>
        (.error (.ProfileFetch e), [.token_exchange req, .profile_fetch])
      | .http_failure status =>
        (.error (.ProfileFetch ("HTTP " ++ status)), [.token_exchange req, .profile_fetch])
      | .parse_error e =>
        (.error (.ProfileFetch e), [.token_exchange req, .profile_fetch])
      | .success profile =>
        if profile.email.isNone then
          match resolve_github_email profile env.emails_fetch with
          | .error e =>
            (.error e, [.token_exchange req, .profile_fetch, .emails_fetch])
          | .ok resolved =>
            (resolve_user_github env.repo resolved,
             [.token_exchange req, .profile_fetch, .emails_fetch])
        else
          (resolve_user_github env.repo profile, [.token_exchange req, .profile_fetch])

/-- ASCII bytes kept verbatim by `urlencoding::encode`: alphanumerics and
`-`, `_`, `.`, `~`. -/
def url_safe_char (c : Char) : Bool :=
  c.isAlphanum || c = '-' || c = '_' || c = '.' || c = '~'

/-- Uppercase hexadecimal digit for `n < 16`. -/
def hex_digit (n : Nat) : Char :=
  if n < 10 then Char.ofNat (48 + n) else Char.ofNat (55 + n)

/-- Percent-encoding of one byte, uppercase hex as `urlencoding` emits. -/
def percent_encode_byte (b : Nat) : String :=
  String.mk ['%', hex_digit (b / 16), hex_digit (b % 16)]

/-- Standard UTF-8 encoding of a scalar value, as a list of byte values. -/
def utf8_bytes (c : Char) : List Nat :=
  let n := c.toNat
  if n < 0x80 then [n]
  else if n < 0x800 then
    [0xC0 ||| (n >>> 6), 0x80 ||| (n &&& 0x3F)]
  else if n < 0x10000 then
    [0xE0 ||| (n >>> 12), 0x80 ||| ((n >>> 6) &&& 0x3F), 0x80 ||| (n &&& 0x3F)]
  else
    [0xF0 ||| (n >>> 18), 0x80 ||| ((n >>> 12) &&& 0x3F),
     0x80 ||| ((n >>> 6) &&& 0x3F), 0x80 ||| (n &&& 0x3F)]

/-- Model of `urlencoding::encode` as used by the handlers and `error.rs`: safe ASCII
characters pass through, every other byte of the UTF-8 encoding is
percent-encoded. -/
def urlencode (s : String) : String :=
  String.join (s.data.map (fun c =>
    if url_safe_char c then String.singleton c
    else String.join ((utf8_bytes c).map percent_encode_byte)))

/-- Model of `AuthCallbackQuery`, from `src/src/handlers.rs` lines 24-29. -/
structure AuthCallbackQuery where
  code : Option String
  state : Option String
  error : Option String
deriving DecidableEq

/-- The per-client session state the handlers read and write through
`SessionExt` (`src/src/session.rs`): the stored CSRF token and the user
session.  The underlying store operations are modelled as infallible. -/
structure SessionState where
  csrf_token : Option String
  user_session : Option SessionData
deriving DecidableEq

/-- A handler response on the modelled paths is always a redirect. -/
inductive HandlerResponse where
  | redirect (url : String)
deriving DecidableEq

instance {ε α : Type} [DecidableEq ε] [DecidableEq α] : DecidableEq (Except ε α) := fun a b =>
  match a, b with
  | .ok x, .ok y => if h : x = y then .isTrue (by rw [h]) else .isFalse (by simp [h])
  | .error x, .error y => if h : x = y then .isTrue (by rw [h]) else .isFalse (by simp [h])
  | .ok _, .error _ => .isFalse (by simp)
  | .error _, .ok _ => .isFalse (by simp)

/-- Result of running a callback handler: the HTTP-level outcome, the session
state it leaves behind, and the provider network calls it made. -/
structure HandlerOutcome where
  response : Except AppError HandlerResponse
  session : SessionState
  provider_calls : List NetworkCall
deriving DecidableEq

/-- Model of `SessionExt::set_user_session`, `src/src/session.rs` lines 63-68. -/
def session_data_of (user : User) : SessionData :=
  { user_id := user.id, username := user.username, provider := user.provider }

/-- The sanitized message used by `microsoft_callback_handler` when the
provider reports an error, `src/src/handlers.rs` line 84. -/
def microsoft_auth_failed_message : String :=
  "Microsoft authentication failed. Please try again."

/-- The sanitized message used by `github_callback_handler` when the provider
reports an error, `src/src/handlers.rs` line 126. -/
def github_auth_failed_message : String :=
  "GitHub authentication failed. Please try again."

/-- Model of `microsoft_callback_handler`, `src/src/handlers.rs` lines 76-116.  When no
CSRF token is stored in the session, the source falls back to treating the
client-supplied `state` parameter as the expected token (lines 94-102). -/
def microsoft_callback_handler (env : MsCallbackEnv) (query : AuthCallbackQuery)
    (session : SessionState) : HandlerOutcome :=
  match query.error with
  | some _ =>
    { response := .ok (.redirect ("/login?error=" ++ urlencode microsoft_auth_failed_message))
      session := session
      provider_calls := [] }
  | none =>
    match query.code with
    | none => { response := .error (.Auth .MissingAuthCode), session := session, provider_calls := [] }
    | some code =>
      match query.state with
      | none => { response := .error (.Auth .StateMismatch), session := session, provider_calls := [] }
      | some state_param =>
        let csrf_token :=
          match session.csrf_token with
          | some token => token
          | none => state_param
        match handle_microsoft_callback env code state_param csrf_token with
        | (.error e, calls) =>
          { response := .error (.Auth e), session := session, provider_calls := calls }
        | (.ok user, calls) =>
          { response := .ok (.redirect "/dashboard")
            session := { session with user_session := some (session_data_of user), csrf_token := none }
            provider_calls := calls }

/-- Model of `github_callback_handler`, `src/src/handlers.rs` lines 118-158, with the
same fallback to the client-supplied `state` parameter (lines 136-144). -/
def github_callback_handler (env : GhCallbackEnv) (query : AuthCallbackQuery)
    (session : SessionState) : HandlerOutcome :=
  match query.error with
  | some _ =>
    { response := .ok (.redirect ("/login?error=" ++ urlencode github_auth_failed_message))
      session := session
      provider_calls := [] }
  | none =>
    match query.code with
    | none => { response := .error (.Auth .MissingAuthCode), session := session, provider_calls := [] }
    | some code =>
      match query.state with
      | none => { response := .error (.Auth .StateMismatch), session := session, provider_calls := [] }
      | some state_param =>
        let csrf_token :=
          match session.csrf_token with
          | some token => token
          | none => state_param
        match handle_github_callback env code state_param csrf_token with
        | (.error e, calls) =>
          { response := .error (.Auth e), session := session, provider_calls := calls }
        | (.ok user, calls) =>
          { response := .ok (.redirect "/dashboard")
            session := { session with user_session := some (session_data_of user), csrf_token := none }
            provider_calls := calls }

/-- The users table, modelled as the list of rows in insertion order together
with the next rowid (`src/src/database.rs`). -/
structure Db where
  users : List User
  next_id : Int
deriving DecidableEq

/-- Model of `UserRepository::find_by_provider_id`, `src/src/database.rs` lines 41-57:
`fetch_optional` of the first row matching `(provider, provider_id)`. -/
def Db.find_by_provider_id (db : Db) (provider provider_id : String) : Option User :=
  db.users.find? (fun u => u.provider == provider && u.provider_id == provider_id)

/-- Model of `UserRepository::create_user`, `src/src/database.rs` lines 59-89, inserting
a row with `created_at = last_login = now` and returning it.

Modelled from the spec: the migrations directory is not under `src/`; the
unique composite index on `(provider, provider_id)` that makes a duplicate
insert fail is taken from spec section 6 ("a unique composite index on
(provider, provider_id)") and is asserted by `test_unique_constraint` in
`src/src/database.rs`. -/
def Db.create_user (db : Db) (cu : CreateUser) (now : Nat) : Except String (User × Db) :=
  if db.users.any (fun u => u.provider == cu.provider && u.provider_id == cu.provider_id) then
    .error "UNIQUE constraint failed: users.provider, users.provider_id"
  else
    let user : User :=
      { id := db.next_id
        provider := cu.provider
        provider_id := cu.provider_id
        username := cu.username
        email := cu.email
        avatar_url := cu.avatar_url
        created_at := now
        last_login := now }
    .ok (user, { users := db.users ++ [user], next_id := db.next_id + 1 })

/-- Model of `UserRepository::update_last_login`, `src/src/database.rs` lines 91-103. -/
def Db.update_last_login (db : Db) (user_id : Int) (now : Nat) : Db :=
  { db with
    users := db.users.map (fun u => if u.id == user_id then { u with last_login := now } else u) }

/-- The resolve-or-create flow of the callback handlers (`src/src/auth.rs`
lines 183-215 and 292-321) composed with the concrete table model: look up by
`(provider, provider_id)`; if found, update `last_login` and return the row as
read; otherwise insert.  The source passes the same `(provider, provider_id)`
pair to the lookup and to the insert, so both are taken from `cu` here.  A
`create_user` failure is mapped to `AuthError::ProfileFetch` exactly as the
source does. -/
def resolve_or_create (db : Db) (cu : CreateUser) (now : Nat) :
    Except AuthError (User × Db) :=
  match db.find_by_provider_id cu.provider cu.provider_id with
  | some existing_user => .ok (existing_user, db.update_last_login existing_user.id now)
  | none =>
    match db.create_user cu now with
    | .ok (user, db2) => .ok (user, db2)
    | .error e => .error (.ProfileFetch e)

/-- The PKCE pair produced by `PkceCodeChallenge::new_random_sha256` at
`src/src/auth.rs` line 81: the challenge (derived from the verifier) and the
verifier itself. -/
structure PkceChallengePair where
  challenge : String
  verifier : String
deriving DecidableEq

/-- The Microsoft authorization URL built by `authorize_url` at
`src/src/auth.rs` lines 83-91: endpoint, client id, CSRF state, the PKCE
challenge, and the scopes `openid profile email`. -/
def microsoft_authorize_url (client_id redirect_uri csrf_state pkce_challenge : String) : String :=
  "https://login.microsoftonline.com/common/oauth2/v2.0/authorize?response_type=code&client_id="
    ++ client_id ++ "&state=" ++ csrf_state
    ++ "&code_challenge=" ++ pkce_challenge ++ "&code_challenge_method=S256"
    ++ "&redirect_uri=" ++ redirect_uri ++ "&scope=openid+profile+email"

/-- Model of `AuthService::initiate_microsoft_auth`, `src/src/auth.rs` lines 80-94: the
PKCE pair is generated, only its challenge is embedded in the authorization
URL (the verifier is bound to `_pkce_verifier` and dropped), and only the URL
and the CSRF token are returned. -/
def initiate_microsoft_auth (client_id redirect_uri csrf_token : String)
    (pkce : PkceChallengePair) : String × String :=
  (microsoft_authorize_url client_id redirect_uri csrf_token pkce.challenge, csrf_token)

/-- Sample repository outcomes in which every operation succeeds and the
identity is not yet known. -/
def sample_repo : RepoEnv :=
  { find_by_provider_id := fun _ _ => .ok none
    update_last_login := fun _ => .ok ()
    create_user := fun cu =>
      .ok { id := 7, provider := cu.provider, provider_id := cu.provider_id,
            username := cu.username, email := cu.email, avatar_url := cu.avatar_url,
            created_at := 5, last_login := 5 } }

/-- Sample Microsoft profile. -/
def sample_ms_profile : MicrosoftUserProfile :=
  { id := "ms1", display_name := some "Ada Lovelace",
    user_principal_name := some "ada@contoso.example", mail := some "ada@contoso.example" }

/-- Sample fully-succeeding Microsoft callback environment. -/
def sample_ms_env : MsCallbackEnv :=
  { token_exchange := .ok "token", profile_fetch := .success sample_ms_profile
    repo := sample_repo }

/-- Sample GitHub profile. -/
def sample_gh_profile : GitHubUserProfile :=
  { id := 42, login := "octo", name := some "Octo Cat",
    email := some "octo@example.com", avatar_url := none }

/-- Sample fully-succeeding GitHub callback environment. -/
def sample_gh_env : GhCallbackEnv :=
  { token_exchange := .ok "token", profile_fetch := .success sample_gh_profile
    emails_fetch := .success [], repo := sample_repo }

/-- Sample existing user row. -/
def sample_user : User :=
  { id := 1, provider := "github", provider_id := "42", username := "octo",
    email := none, avatar_url := none, created_at := 0, last_login := 0 }

/-- Repository outcomes in which the lookup itself fails. -/
def find_error_repo : RepoEnv :=
  { find_by_provider_id := fun _ _ => .error "db connection lost"
    update_last_login := fun _ => .ok ()
    create_user := fun _ => .error "db connection lost" }

/-- Repository outcomes in which the lookup succeeds and the last-login update
fails. -/
def update_error_repo : RepoEnv :=
  { find_by_provider_id := fun _ _ => .ok (some sample_user)
    update_last_login := fun _ => .error "db connection lost"
    create_user := fun _ => .error "db connection lost" }

/-- Repository outcomes in which the lookup finds nothing and the insert
fails. -/
def create_error_repo : RepoEnv :=
  { find_by_provider_id := fun _ _ => .ok none
    update_last_login := fun _ => .ok ()
    create_user := fun _ => .error "db connection lost" }

/-- Repository outcomes describing the losing side of a concurrent duplicate
account creation: the lookup sees no row and the insert then hits the
uniqueness constraint. -/
def duplicate_violation_repo : RepoEnv :=
  { find_by_provider_id := fun _ _ => .ok none
    update_last_login := fun _ => .ok ()
    create_user := fun _ => .error "UNIQUE constraint failed: users.provider, users.provider_id" }

/-- Microsoft callback environment whose token exchange fails. -/
def failing_ms_env : MsCallbackEnv :=
  { token_exchange := .error "provider unreachable"
    profile_fetch := .success sample_ms_profile
    repo := sample_repo }

/-- GitHub callback environment whose token exchange fails. -/
def failing_gh_env : GhCallbackEnv :=
  { token_exchange := .error "provider unreachable"
    profile_fetch := .success sample_gh_profile
    emails_fetch := .success []
    repo := sample_repo }

/-- Session holding a stored CSRF token and no user session. -/
def sample_session : SessionState :=
  { csrf_token := some "tok", user_session := none }

/-- GitHub profile with no public email, for the C7 witness. -/
def c7_profile : GitHubUserProfile :=
  { id := 7, login := "privateuser", name := none, email := none, avatar_url := none }

/-- The emails list from the spec example, for the C7 witness. -/
def c7_emails : List GitHubEmail :=
  [{ email := "a@x.com", primary := false, verified := true },
   { email := "b@x.com", primary := true, verified := true }]

/-- Empty users table with rowids starting at 1, as after the migration. -/
def empty_db : Db := { users := [], next_id := 1 }

/-- Sample identity for the idempotence witness. -/
def sample_cu : CreateUser :=
  { provider := "github", provider_id := "42", username := "octo",
    email := none, avatar_url := none }

/-- The row the first resolve-or-create call inserts for `sample_cu` at t=1. -/
def sample_created_user : User :=
  { id := 1, provider := "github", provider_id := "42", username := "octo",
    email := none, avatar_url := none, created_at := 1, last_login := 1 }

/-- The table after that first call. -/
def sample_db1 : Db := { users := [sample_created_user], next_id := 2 }

/-- Microsoft profile with no display name, for the C6 witness. -/
def c6_ms_profile : MicrosoftUserProfile :=
  { id := "m1", display_name := none,
    user_principal_name := some "upn@contoso.example", mail := none }

/-- GitHub profile with no display name, for the C6 witness. -/
def c6_gh_profile : GitHubUserProfile :=
  { id := 9, login := "ninelives", name := none, email := none, avatar_url := none }

/-- The row created for `c6_ms_profile` on an empty table at t=3. -/
def c6_ms_user : User :=
  { id := 1, provider := "microsoft", provider_id := "m1",
    username := "upn@contoso.example", email := none, avatar_url := none,
    created_at := 3, last_login := 3 }

/-- The table after inserting `c6_ms_user`. -/
def c6_ms_db : Db := { users := [c6_ms_user], next_id := 2 }

/-- The row created for `c6_gh_profile` on an empty table at t=3. -/
def c6_gh_user : User :=
  { id := 1, provider := "github", provider_id := "9", username := "ninelives",
    email := none, avatar_url := none, created_at := 3, last_login := 3 }

/-- The table after inserting `c6_gh_user`. -/
def c6_gh_db : Db := { users := [c6_gh_user], next_id := 2 }

/-- C2: for every callback (Microsoft or GitHub) in which the received state
parameter differs from the stored CSRF token used as the expected value, the
service fails with `StateMismatch` and its trace of provider network calls is
empty — CSRF verification precedes the token-exchange and profile-fetch steps
in every execution. -/
theorem state_mismatch_rejected_before_network_calls
    (msEnv : MsCallbackEnv) (ghEnv : GhCallbackEnv) (code state token : String)
    (h : state ≠ token) :
    handle_microsoft_callback msEnv code state token = (.error .StateMismatch, []) ∧
    handle_github_callback ghEnv code state token = (.error .StateMismatch, []) := by
  constructor
  · simp [handle_microsoft_callback, h]
  · simp [handle_github_callback, h]

/-- Witness for C2 at concrete inputs. -/
theorem state_mismatch_rejected_before_network_calls_witness :
    "state-a" ≠ "state-b" ∧
    (handle_microsoft_callback sample_ms_env "code" "state-a" "state-b" =
        (.error .StateMismatch, []) ∧
      handle_github_callback sample_gh_env "code" "state-a" "state-b" =
        (.error .StateMismatch, [])) :=
  ⟨by decide,
   state_mismatch_rejected_before_network_calls sample_ms_env sample_gh_env
     "code" "state-a" "state-b" (by decide)⟩

/-- C8: a callback request whose query string carries an `error` parameter
redirects to the login page with the URL-encoded sanitized message, leaves the
session untouched, and performs no provider network call at all — in
particular the token-exchange step is never reached. -/
theorem error_param_short_circuits_to_login_redirect
    (msEnv : MsCallbackEnv) (ghEnv : GhCallbackEnv) (query : AuthCallbackQuery)
    (sess : SessionState) (e : String) (h : query.error = some e) :
    microsoft_callback_handler msEnv query sess =
      { response := .ok (.redirect ("/login?error=" ++ urlencode microsoft_auth_failed_message))
        session := sess
        provider_calls := [] } ∧
    github_callback_handler ghEnv query sess =
      { response := .ok (.redirect ("/login?error=" ++ urlencode github_auth_failed_message))
        session := sess
        provider_calls := [] } := by
  constructor
  · unfold microsoft_callback_handler
    rw [h]
  · unfold github_callback_handler
    rw [h]

/-- Witness for C8: `error=access_denied` at a concrete query. -/
theorem error_param_short_circuits_to_login_redirect_witness :
    AuthCallbackQuery.error { code := none, state := none, error := some "access_denied" } =
      some "access_denied" ∧
    (microsoft_callback_handler sample_ms_env
        { code := none, state := none, error := some "access_denied" }
        { csrf_token := none, user_session := none } =
      { response := .ok (.redirect ("/login?error=" ++ urlencode microsoft_auth_failed_message))
        session := { csrf_token := none, user_session := none }
        provider_calls := [] } ∧
    github_callback_handler sample_gh_env
        { code := none, state := none, error := some "access_denied" }
        { csrf_token := none, user_session := none } =
      { response := .ok (.redirect ("/login?error=" ++ urlencode github_auth_failed_message))
        session := { csrf_token := none, user_session := none }
        provider_calls := [] }) :=
  ⟨rfl,
   error_param_short_circuits_to_login_redirect sample_ms_env sample_gh_env
     { code := none, state := none, error := some "access_denied" }
     { csrf_token := none, user_session := none } "access_denied" rfl⟩

/-- C4 counterexample: when the lookup sees no row and the insert then fails
with the uniqueness-constraint violation (the losing side of a concurrent
duplicate creation), the service surfaces `AuthError::ProfileFetch` carrying
the constraint error to the caller instead of re-reading and returning the
now-existing row. -/
theorem constraint_violation_surfaced_concrete :
    resolve_user_microsoft duplicate_violation_repo sample_ms_profile =
      .error (.ProfileFetch "UNIQUE constraint failed: users.provider, users.provider_id") ∧
    resolve_user_github duplicate_violation_repo sample_gh_profile =
      .error (.ProfileFetch "UNIQUE constraint failed: users.provider, users.provider_id") :=
  ⟨rfl, rfl⟩

/-- C4 (amended): an account-creation attempt that fails with the storage
layer uniqueness-constraint violation is not recovered; the failure is
surfaced to the caller as `AuthError::ProfileFetch` carrying the storage error
text, and no re-read is performed. -/
theorem constraint_violation_maps_to_profile_fetch
    (repo : RepoEnv) (ms : MicrosoftUserProfile) (gh : GitHubUserProfile) (e : String)
    (hm : repo.find_by_provider_id "microsoft" ms.id = .ok none)
    (hg : repo.find_by_provider_id "github" (toString gh.id) = .ok none)
    (hcm : repo.create_user (microsoft_create_user ms) = .error e)
    (hcg : repo.create_user (github_create_user gh) = .error e) :
    resolve_user_microsoft repo ms = .error (.ProfileFetch e) ∧
    resolve_user_github repo gh = .error (.ProfileFetch e) := by
  constructor
  · unfold resolve_user_microsoft
    rw [hm, hcm]
  · unfold resolve_user_github
    rw [hg, hcg]

/-- Witness for the amended C4 at concrete inputs. -/
theorem constraint_violation_maps_to_profile_fetch_witness :
    duplicate_violation_repo.find_by_provider_id "microsoft" sample_ms_profile.id = .ok none ∧
    duplicate_violation_repo.create_user (microsoft_create_user sample_ms_profile) =
      .error "UNIQUE constraint failed: users.provider, users.provider_id" ∧
    (resolve_user_microsoft duplicate_violation_repo sample_ms_profile =
        .error (.ProfileFetch "UNIQUE constraint failed: users.provider, users.provider_id") ∧
      resolve_user_github duplicate_violation_repo sample_gh_profile =
        .error (.ProfileFetch "UNIQUE constraint failed: users.provider, users.provider_id")) :=
  ⟨rfl, rfl,
   constraint_violation_maps_to_profile_fetch duplicate_violation_repo
     sample_ms_profile sample_gh_profile
     "UNIQUE constraint failed: users.provider, users.provider_id" rfl rfl rfl rfl⟩

/-- C10: every storage-layer failure during account resolution — the lookup
error, the last-login update error, and the insert error — is surfaced as
`AuthError::ProfileFetch` in both callback flows, and that error kind maps to
the user-facing message about failing to retrieve the profile. -/
theorem storage_failures_surface_as_profile_fetch
    (ms : MicrosoftUserProfile) (gh : GitHubUserProfile) (e : String) (u : User) :
    (∀ repo : RepoEnv, repo.find_by_provider_id "microsoft" ms.id = .error e →
      resolve_user_microsoft repo ms = .error (.ProfileFetch e)) ∧
    (∀ repo : RepoEnv, repo.find_by_provider_id "microsoft" ms.id = .ok (some u) →
      repo.update_last_login u.id = .error e →
      resolve_user_microsoft repo ms = .error (.ProfileFetch e)) ∧
    (∀ repo : RepoEnv, repo.find_by_provider_id "microsoft" ms.id = .ok none →
      repo.create_user (microsoft_create_user ms) = .error e →
      resolve_user_microsoft repo ms = .error (.ProfileFetch e)) ∧
    (∀ repo : RepoEnv, repo.find_by_provider_id "github" (toString gh.id) = .error e →
      resolve_user_github repo gh = .error (.ProfileFetch e)) ∧
    (∀ repo : RepoEnv, repo.find_by_provider_id "github" (toString gh.id) = .ok (some u) →
      repo.update_last_login u.id = .error e →
      resolve_user_github repo gh = .error (.ProfileFetch e)) ∧
    (∀ repo : RepoEnv, repo.find_by_provider_id "github" (toString gh.id) = .ok none →
      repo.create_user (github_create_user gh) = .error e →
      resolve_user_github repo gh = .error (.ProfileFetch e)) ∧
    auth_error_user_message (.ProfileFetch e) =
      "Failed to retrieve your profile. Please try again." := by
  refine ⟨?_, ?_, ?_, ?_, ?_, ?_, rfl⟩
  · intro repo h1
    unfold resolve_user_microsoft
    rw [h1]
  · intro repo h1 h2
    unfold resolve_user_microsoft
    simp only [h1, h2]
  · intro repo h1 h2
    unfold resolve_user_microsoft
    rw [h1, h2]
  · intro repo h1
    unfold resolve_user_github
    rw [h1]
  · intro repo h1 h2
    unfold resolve_user_github
    simp only [h1, h2]
  · intro repo h1 h2
    unfold resolve_user_github
    rw [h1, h2]

/-- Witness for C10: each of the three storage failure points at a concrete
repository environment, in both flows. -/
theorem storage_failures_surface_as_profile_fetch_witness :
    resolve_user_microsoft find_error_repo sample_ms_profile =
      .error (.ProfileFetch "db connection lost") ∧
    resolve_user_microsoft update_error_repo sample_ms_profile =
      .error (.ProfileFetch "db connection lost") ∧
    resolve_user_microsoft create_error_repo sample_ms_profile =
      .error (.ProfileFetch "db connection lost") ∧
    resolve_user_github find_error_repo sample_gh_profile =
      .error (.ProfileFetch "db connection lost") ∧
    resolve_user_github update_error_repo sample_gh_profile =
      .error (.ProfileFetch "db connection lost") ∧
    resolve_user_github create_error_repo sample_gh_profile =
      .error (.ProfileFetch "db connection lost") :=
  ⟨(storage_failures_surface_as_profile_fetch sample_ms_profile sample_gh_profile
      "db connection lost" sample_user).1 find_error_repo rfl,
   (storage_failures_surface_as_profile_fetch sample_ms_profile sample_gh_profile
      "db connection lost" sample_user).2.1 update_error_repo rfl rfl,
   (storage_failures_surface_as_profile_fetch sample_ms_profile sample_gh_profile
      "db connection lost" sample_user).2.2.1 create_error_repo rfl rfl,
   (storage_failures_surface_as_profile_fetch sample_ms_profile sample_gh_profile
      "db connection lost" sample_user).2.2.2.1 find_error_repo rfl,
   (storage_failures_surface_as_profile_fetch sample_ms_profile sample_gh_profile
      "db connection lost" sample_user).2.2.2.2.1 update_error_repo rfl rfl,
   (storage_failures_surface_as_profile_fetch sample_ms_profile sample_gh_profile
      "db connection lost" sample_user).2.2.2.2.2.1 create_error_repo rfl rfl⟩

/-- The account-resolution block never produces `StateMismatch`: its only
error constructor is `ProfileFetch` (Microsoft flow). -/
theorem resolve_user_microsoft_ne_state_mismatch (repo : RepoEnv)
    (p : MicrosoftUserProfile) :
    resolve_user_microsoft repo p ≠ .error .StateMismatch := by
  unfold resolve_user_microsoft
  split
  · split <;> simp
  · split <;> simp
  · simp

/-- The account-resolution block never produces `StateMismatch`: its only
error constructor is `ProfileFetch` (GitHub flow). -/
theorem resolve_user_github_ne_state_mismatch (repo : RepoEnv)
    (p : GitHubUserProfile) :
    resolve_user_github repo p ≠ .error .StateMismatch := by
  unfold resolve_user_github
  split
  · split <;> simp
  · split <;> simp
  · simp

/-- When the received state equals the expected token, the Microsoft service
call cannot fail with `StateMismatch` and its first provider call is the
token exchange (carrying no PKCE verifier). -/
theorem handle_microsoft_callback_self_state (env : MsCallbackEnv) (c s : String) :
    (handle_microsoft_callback env c s s).1 ≠ .error .StateMismatch ∧
    (handle_microsoft_callback env c s s).2.head? =
      some (.token_exchange { code := c, pkce_verifier := none }) := by
  unfold handle_microsoft_callback
  simp only [ne_eq, not_true_eq_false, if_false]
  split
  · simp
  · split <;> simp [resolve_user_microsoft_ne_state_mismatch]

/-- The email-resolution step never produces `StateMismatch`: its only error
constructor is `ProfileFetch`. -/
theorem resolve_github_email_ne_state_mismatch (p : GitHubUserProfile)
    (f : FetchResult (List GitHubEmail)) :
    resolve_github_email p f ≠ .error .StateMismatch := by
  unfold resolve_github_email fetch_primary_verified_email
  split
  · cases f <;> simp [Except.map]
  · simp

/-- When the received state equals the expected token, the GitHub service call
cannot fail with `StateMismatch` and its first provider call is the token
exchange (carrying no PKCE verifier). -/
theorem handle_github_callback_self_state (env : GhCallbackEnv) (c s : String) :
    (handle_github_callback env c s s).1 ≠ .error .StateMismatch ∧
    (handle_github_callback env c s s).2.head? =
      some (.token_exchange { code := c, pkce_verifier := none }) := by
  unfold handle_github_callback
  simp only [ne_eq, not_true_eq_false, if_false]
  rcases htok : env.token_exchange with e | tok
  · simp [htok]
  · rcases hpf : env.profile_fetch with e | st | e | profile
    · simp [htok, hpf]
    · simp [htok, hpf]
    · simp [htok, hpf]
    · by_cases hn : profile.email.isNone = true
      · rcases hre : resolve_github_email profile env.emails_fetch with e | resolved
        · have hne := resolve_github_email_ne_state_mismatch profile env.emails_fetch
          rw [hre] at hne
          simp only [htok, hpf]
          rw [if_pos hn, hre]
          refine ⟨?_, rfl⟩
          simpa using hne
        · simp only [htok, hpf]
          rw [if_pos hn, hre]
          exact ⟨resolve_user_github_ne_state_mismatch _ _, rfl⟩
      · simp only [htok, hpf]
        rw [if_neg hn]
        exact ⟨resolve_user_github_ne_state_mismatch _ _, rfl⟩

/-- C1 counterexample: a callback arriving when no CSRF token is stored for
the session is not rejected — with the development fallback of
`src/src/handlers.rs` lines 94-102 the client-supplied state is accepted as
the token to verify against, and the callback completes with a redirect to
the dashboard. -/
theorem missing_token_callback_accepted :
    (microsoft_callback_handler sample_ms_env
        { code := some "c", state := some "s", error := none }
        { csrf_token := none, user_session := none }).response =
      .ok (.redirect "/dashboard") ∧
    (microsoft_callback_handler sample_ms_env
        { code := some "c", state := some "s", error := none }
        { csrf_token := none, user_session := none }).response ≠
      .error (.Auth .StateMismatch) ∧
    (github_callback_handler sample_gh_env
        { code := some "c", state := some "s", error := none }
        { csrf_token := none, user_session := none }).response =
      .ok (.redirect "/dashboard") :=
  ⟨rfl, by decide, rfl⟩

/-- C1 (amended): when no CSRF token is stored at callback time, neither
handler rejects: each substitutes the client-supplied state parameter for the
expected token, so verification cannot fail with `StateMismatch`, and the
provider token exchange is attempted (it is the first provider call in the
trace). -/
theorem missing_token_falls_back_to_client_state
    (msEnv : MsCallbackEnv) (ghEnv : GhCallbackEnv) (c s : String) (sess : SessionState)
    (h : sess.csrf_token = none) :
    ((microsoft_callback_handler msEnv
          { code := some c, state := some s, error := none } sess).response ≠
        .error (.Auth .StateMismatch) ∧
      (microsoft_callback_handler msEnv
          { code := some c, state := some s, error := none } sess).provider_calls.head? =
        some (.token_exchange { code := c, pkce_verifier := none })) ∧
    ((github_callback_handler ghEnv
          { code := some c, state := some s, error := none } sess).response ≠
        .error (.Auth .StateMismatch) ∧
      (github_callback_handler ghEnv
          { code := some c, state := some s, error := none } sess).provider_calls.head? =
        some (.token_exchange { code := c, pkce_verifier := none })) := by
  have hsm := handle_microsoft_callback_self_state msEnv c s
  have hsg := handle_github_callback_self_state ghEnv c s
  constructor
  · unfold microsoft_callback_handler
    rw [h]
    rcases hh : handle_microsoft_callback msEnv c s s with ⟨res, calls⟩
    rw [hh] at hsm
    simp only [hh]
    cases res with
    | error e =>
      refine ⟨?_, by simpa using hsm.2⟩
      intro hc
      apply hsm.1
      simp only [Except.error.injEq, AppError.Auth.injEq] at hc
      simp [hc]
    | ok u =>
      exact ⟨by simp, by simpa using hsm.2⟩
  · unfold github_callback_handler
    rw [h]
    rcases hh : handle_github_callback ghEnv c s s with ⟨res, calls⟩
    rw [hh] at hsg
    simp only [hh]
    cases res with
    | error e =>
      refine ⟨?_, by simpa using hsg.2⟩
      intro hc
      apply hsg.1
      simp only [Except.error.injEq, AppError.Auth.injEq] at hc
      simp [hc]
    | ok u =>
      exact ⟨by simp, by simpa using hsg.2⟩

/-- Witness for the amended C1 at concrete inputs. -/
theorem missing_token_falls_back_to_client_state_witness :
    SessionState.csrf_token { csrf_token := none, user_session := none } = none ∧
    (((microsoft_callback_handler sample_ms_env
          { code := some "c", state := some "s", error := none }
          { csrf_token := none, user_session := none }).response ≠
        .error (.Auth .StateMismatch) ∧
      (microsoft_callback_handler sample_ms_env
          { code := some "c", state := some "s", error := none }
          { csrf_token := none, user_session := none }).provider_calls.head? =
        some (.token_exchange { code := "c", pkce_verifier := none })) ∧
    ((github_callback_handler sample_gh_env
          { code := some "c", state := some "s", error := none }
          { csrf_token := none, user_session := none }).response ≠
        .error (.Auth .StateMismatch) ∧
      (github_callback_handler sample_gh_env
          { code := some "c", state := some "s", error := none }
          { csrf_token := none, user_session := none }).provider_calls.head? =
        some (.token_exchange { code := "c", pkce_verifier := none }))) :=
  ⟨rfl,
   missing_token_falls_back_to_client_state sample_ms_env sample_gh_env "c" "s"
     { csrf_token := none, user_session := none } rfl⟩

/-- C3 counterexample: a callback on which CSRF verification is performed
(stored token present and matching) but whose token exchange then fails leaves
the stored CSRF token in the session — it is not removed on failure, so the
same state value would be accepted by a later callback. -/
theorem csrf_token_not_cleared_on_failure :
    (microsoft_callback_handler failing_ms_env
        { code := some "c", state := some "tok", error := none } sample_session).response =
      .error (.Auth (.TokenExchange "provider unreachable")) ∧
    (microsoft_callback_handler failing_ms_env
        { code := some "c", state := some "tok", error := none } sample_session).session.csrf_token =
      some "tok" ∧
    (github_callback_handler failing_gh_env
        { code := some "c", state := some "tok", error := none } sample_session).session.csrf_token =
      some "tok" :=
  ⟨rfl, rfl, rfl⟩

/-- C3 (amended): the stored CSRF token is removed only when the callback
fully succeeds; on any failing callback the handler returns early and the
session — including the stored CSRF token — is left unchanged. -/
theorem csrf_token_cleared_only_on_success
    (msEnv : MsCallbackEnv) (ghEnv : GhCallbackEnv) (c s : String) (sess : SessionState) :
    (((microsoft_callback_handler msEnv
          { code := some c, state := some s, error := none } sess).response =
        .ok (.redirect "/dashboard") →
      (microsoft_callback_handler msEnv
          { code := some c, state := some s, error := none } sess).session.csrf_token = none) ∧
      (∀ e, (microsoft_callback_handler msEnv
          { code := some c, state := some s, error := none } sess).response = .error e →
        (microsoft_callback_handler msEnv
          { code := some c, state := some s, error := none } sess).session = sess)) ∧
    (((github_callback_handler ghEnv
          { code := some c, state := some s, error := none } sess).response =
        .ok (.redirect "/dashboard") →
      (github_callback_handler ghEnv
          { code := some c, state := some s, error := none } sess).session.csrf_token = none) ∧
      (∀ e, (github_callback_handler ghEnv
          { code := some c, state := some s, error := none } sess).response = .error e →
        (github_callback_handler ghEnv
          { code := some c, state := some s, error := none } sess).session = sess)) := by
  constructor
  · cases hsct : sess.csrf_token with
    | some tok =>
      unfold microsoft_callback_handler
      rw [hsct]
      rcases hh : handle_microsoft_callback msEnv c s tok with ⟨res, calls⟩
      simp only [hh]
      cases res with
      | error e =>
        exact ⟨fun hc => absurd hc (by simp), fun e2 _ => rfl⟩
      | ok u =>
        exact ⟨fun _ => rfl, fun e2 hc => absurd hc (by simp)⟩
    | none =>
      unfold microsoft_callback_handler
      rw [hsct]
      rcases hh : handle_microsoft_callback msEnv c s s with ⟨res, calls⟩
      simp only [hh]
      cases res with
      | error e =>
        exact ⟨fun hc => absurd hc (by simp), fun e2 _ => rfl⟩
      | ok u =>
        exact ⟨fun _ => rfl, fun e2 hc => absurd hc (by simp)⟩
  · cases hsct : sess.csrf_token with
    | some tok =>
      unfold github_callback_handler
      rw [hsct]
      rcases hh : handle_github_callback ghEnv c s tok with ⟨res, calls⟩
      simp only [hh]
      cases res with
      | error e =>
        exact ⟨fun hc => absurd hc (by simp), fun e2 _ => rfl⟩
      | ok u =>
        exact ⟨fun _ => rfl, fun e2 hc => absurd hc (by simp)⟩
    | none =>
      unfold github_callback_handler
      rw [hsct]
      rcases hh : handle_github_callback ghEnv c s s with ⟨res, calls⟩
      simp only [hh]
      cases res with
      | error e =>
        exact ⟨fun hc => absurd hc (by simp), fun e2 _ => rfl⟩
      | ok u =>
        exact ⟨fun _ => rfl, fun e2 hc => absurd hc (by simp)⟩

/-- Witness for the amended C3: a succeeding callback clears the stored token,
a failing one leaves the session unchanged, for both providers. -/
theorem csrf_token_cleared_only_on_success_witness :
    (microsoft_callback_handler sample_ms_env
        { code := some "c", state := some "tok", error := none } sample_session).session.csrf_token =
      none ∧
    (microsoft_callback_handler failing_ms_env
        { code := some "c", state := some "tok", error := none } sample_session).session =
      sample_session ∧
    (github_callback_handler sample_gh_env
        { code := some "c", state := some "tok", error := none } sample_session).session.csrf_token =
      none ∧
    (github_callback_handler failing_gh_env
        { code := some "c", state := some "tok", error := none } sample_session).session =
      sample_session :=
  ⟨(csrf_token_cleared_only_on_success sample_ms_env sample_gh_env "c" "tok" sample_session).1.1 rfl,
   (csrf_token_cleared_only_on_success failing_ms_env failing_gh_env "c" "tok" sample_session).1.2
     (.Auth (.TokenExchange "provider unreachable")) rfl,
   (csrf_token_cleared_only_on_success sample_ms_env sample_gh_env "c" "tok" sample_session).2.1 rfl,
   (csrf_token_cleared_only_on_success failing_ms_env failing_gh_env "c" "tok" sample_session).2.2
     (.Auth (.TokenExchange "provider unreachable")) rfl⟩

/-- C9: login initiation discards the PKCE verifier — its result depends only
on the challenge and contains only the authorization URL (with the challenge
embedded) and the CSRF token — and every token-exchange request a Microsoft
callback run makes carries no PKCE verifier. -/
theorem pkce_verifier_discarded_and_never_sent
    (client_id redirect_uri csrf ch v1 v2 : String) (env : MsCallbackEnv)
    (code s t : String) (req : ExchangeRequest) :
    initiate_microsoft_auth client_id redirect_uri csrf { challenge := ch, verifier := v1 } =
      initiate_microsoft_auth client_id redirect_uri csrf { challenge := ch, verifier := v2 } ∧
    initiate_microsoft_auth client_id redirect_uri csrf { challenge := ch, verifier := v1 } =
      (microsoft_authorize_url client_id redirect_uri csrf ch, csrf) ∧
    (NetworkCall.token_exchange req ∈ (handle_microsoft_callback env code s t).2 →
      req.pkce_verifier = none) := by
  refine ⟨rfl, rfl, ?_⟩
  unfold handle_microsoft_callback
  split
  · intro hmem
    simp at hmem
  · rcases htok : env.token_exchange with e | tok
    · simp only [htok]
      intro hmem
      simp at hmem
      simp [hmem]
    · rcases hpf : env.profile_fetch with e | st2 | e | profile <;>
        simp only [htok, hpf] <;> intro hmem <;> simp at hmem <;> simp [hmem]

/-- Witness for C9 at concrete inputs: a run that does reach the token
exchange, whose request carries no verifier. -/
theorem pkce_verifier_discarded_and_never_sent_witness :
    (NetworkCall.token_exchange { code := "c", pkce_verifier := none } ∈
        (handle_microsoft_callback sample_ms_env "c" "s" "s").2) ∧
    ExchangeRequest.pkce_verifier { code := "c", pkce_verifier := none } = none ∧
    initiate_microsoft_auth "cid" "uri" "st" { challenge := "ch", verifier := "v1" } =
      initiate_microsoft_auth "cid" "uri" "st" { challenge := "ch", verifier := "v2" } :=
  ⟨by decide,
   (pkce_verifier_discarded_and_never_sent "cid" "uri" "st" "ch" "v1" "v2" sample_ms_env
      "c" "s" "s" { code := "c", pkce_verifier := none }).2.2 (by decide),
   (pkce_verifier_discarded_and_never_sent "cid" "uri" "st" "ch" "v1" "v2" sample_ms_env
      "c" "s" "s" { code := "c", pkce_verifier := none }).1⟩

/-- C7: for a GitHub profile without a public email, the resolved email is the
entry of the fetched list with `primary` and `verified` both true; with no such
entry the email stays unset and the step still succeeds, flowing into account
resolution; and on the concrete list from the spec the resolved email is
b@x.com. -/
theorem github_email_fallback_selection
    (profile : GitHubUserProfile) (emails : List GitHubEmail)
    (h : profile.email = none) :
    (resolve_github_email profile (.success emails) =
      .ok { profile with
            email := (emails.find? (fun em => em.primary && em.verified)).map GitHubEmail.email }) ∧
    (emails.find? (fun em => em.primary && em.verified) = none →
      resolve_github_email profile (.success emails) = .ok { profile with email := none }) ∧
    (∀ (repo : RepoEnv) (tok c s : String),
      handle_github_callback
          { token_exchange := .ok tok, profile_fetch := .success profile
            emails_fetch := .success emails, repo := repo } c s s =
        (resolve_user_github repo
            { profile with
              email := (emails.find? (fun em => em.primary && em.verified)).map GitHubEmail.email },
         [.token_exchange { code := c, pkce_verifier := none }, .profile_fetch, .emails_fetch])) ∧
    resolve_github_email { profile with email := none }
        (.success [{ email := "a@x.com", primary := false, verified := true },
                   { email := "b@x.com", primary := true, verified := true }]) =
      .ok { profile with email := some "b@x.com" } := by
  have hn : profile.email.isNone = true := by simp [h]
  have h1 : resolve_github_email profile (.success emails) =
      .ok { profile with
            email := (emails.find? (fun em => em.primary && em.verified)).map GitHubEmail.email } := by
    unfold resolve_github_email fetch_primary_verified_email
    rw [if_pos hn]
    rfl
  refine ⟨h1, ?_, ?_, rfl⟩
  · intro hfind
    rw [h1, hfind]
    rfl
  · intro repo tok c s
    unfold handle_github_callback
    simp only [ne_eq, not_true_eq_false, if_false]
    rw [if_pos hn]
    unfold resolve_github_email fetch_primary_verified_email
    rw [if_pos hn]
    rfl

/-- Witness for C7: the spec example list resolves to b@x.com. -/
theorem github_email_fallback_selection_witness :
    c7_profile.email = none ∧
    resolve_github_email c7_profile (.success c7_emails) =
      .ok { c7_profile with email := some "b@x.com" } :=
  ⟨rfl, (github_email_fallback_selection c7_profile c7_emails rfl).1⟩

/-- Updating last_login preserves the number of rows. -/
theorem update_last_login_users_length (db : Db) (i : Int) (t : Nat) :
    (db.update_last_login i t).users.length = db.users.length := by
  simp [Db.update_last_login]

/-- Updating last_login changes the row a provider-identity lookup finds only
in its last_login field. -/
theorem find_by_provider_id_update_last_login (db : Db) (i : Int) (t : Nat) (p pid : String) :
    (db.update_last_login i t).find_by_provider_id p pid =
      (db.find_by_provider_id p pid).map
        (fun u => if u.id == i then { u with last_login := t } else u) := by
  unfold Db.update_last_login Db.find_by_provider_id
  rw [List.find?_map]
  have hcomp : ((fun u : User => u.provider == p && u.provider_id == pid) ∘
      (fun u : User => if u.id == i then { u with last_login := t } else u)) =
      (fun u : User => u.provider == p && u.provider_id == pid) := by
    funext u
    by_cases hu : u.id == i <;> simp [hu, Function.comp]
  rw [hcomp]

/-- C5: resolve-or-create is idempotent on (provider, provider_id): after a
first call returning user `u1` and table `db1`, a second call with the same
identity succeeds, returns a user with the same id, changes the table only by
updating the last_login of that row, and never adding a row. -/
theorem resolve_or_create_idempotent
    (db : Db) (cu : CreateUser) (t1 t2 : Nat) (u1 : User) (db1 : Db)
    (h1 : resolve_or_create db cu t1 = .ok (u1, db1)) :
    ∃ u2 : User,
      resolve_or_create db1 cu t2 = .ok (u2, db1.update_last_login u2.id t2) ∧
      u2.id = u1.id ∧
      (db1.update_last_login u2.id t2).users.length = db1.users.length := by
  unfold resolve_or_create at h1 ⊢
  cases hf : db.find_by_provider_id cu.provider cu.provider_id with
  | some existing =>
    simp only [hf, Except.ok.injEq, Prod.mk.injEq] at h1
    obtain ⟨hu, hdb⟩ := h1
    subst hu hdb
    refine ⟨{ existing with last_login := t1 }, ?_, rfl,
      update_last_login_users_length _ _ _⟩
    rw [find_by_provider_id_update_last_login, hf, Option.map_some']
    simp only [beq_self_eq_true, if_true]
  | none =>
    have hfl : db.users.find?
        (fun u => u.provider == cu.provider && u.provider_id == cu.provider_id) = none := hf
    have hany : db.users.any
        (fun u => u.provider == cu.provider && u.provider_id == cu.provider_id) = false :=
      List.any_eq_false.mpr (List.find?_eq_none.mp hfl)
    unfold Db.create_user at h1
    simp only [hf, hany, Bool.false_eq_true, if_false, Except.ok.injEq, Prod.mk.injEq] at h1
    obtain ⟨hu, hdb⟩ := h1
    subst hdb
    rw [hu]
    have hprov : u1.provider = cu.provider := by rw [← hu]
    have hpid : u1.provider_id = cu.provider_id := by rw [← hu]
    refine ⟨u1, ?_, rfl, update_last_login_users_length _ _ _⟩
    unfold Db.find_by_provider_id
    rw [List.find?_append, hfl, Option.none_or,
      List.find?_cons_of_pos _ (by simp [hprov, hpid])]

/-- Witness for C5: two successive calls with the same identity on an empty
table. -/
theorem resolve_or_create_idempotent_witness :
    resolve_or_create empty_db sample_cu 1 = .ok (sample_created_user, sample_db1) ∧
    ∃ u2 : User,
      resolve_or_create sample_db1 sample_cu 2 = .ok (u2, sample_db1.update_last_login u2.id 2) ∧
      u2.id = sample_created_user.id ∧
      (sample_db1.update_last_login u2.id 2).users.length = sample_db1.users.length :=
  ⟨by decide,
   resolve_or_create_idempotent empty_db sample_cu 1 2 sample_created_user sample_db1 (by decide)⟩

/-- C6: for every newly created account the stored username follows the
derivation policy — Microsoft: display name, else user-principal-name, else
the literal Microsoft User; GitHub: profile name, else login handle. -/
theorem new_account_username_derivation
    (db : Db) (ms : MicrosoftUserProfile) (gh : GitHubUserProfile) (t : Nat)
    (um ug : User) (dbm dbg : Db)
    (hm : db.find_by_provider_id "microsoft" ms.id = none)
    (hg : db.find_by_provider_id "github" (toString gh.id) = none)
    (h1 : resolve_or_create db (microsoft_create_user ms) t = .ok (um, dbm))
    (h2 : resolve_or_create db (github_create_user gh) t = .ok (ug, dbg)) :
    um.username =
      (match ms.display_name with
       | some dn => dn
       | none =>
         match ms.user_principal_name with
         | some upn => upn
         | none => "Microsoft User") ∧
    ug.username = (match gh.name with | some n => n | none => gh.login) := by
  constructor
  · have hanym : db.users.any
        (fun u => u.provider == "microsoft" && u.provider_id == ms.id) = false :=
      List.any_eq_false.mpr (List.find?_eq_none.mp hm)
    unfold resolve_or_create Db.create_user at h1
    simp only [microsoft_create_user] at h1
    simp only [hm, hanym, Bool.false_eq_true, if_false, Except.ok.injEq, Prod.mk.injEq] at h1
    obtain ⟨hu, hdb⟩ := h1
    rw [← hu]
    cases hdn : ms.display_name with
    | some dn => simp [hdn]
    | none =>
      cases hupn : ms.user_principal_name with
      | some upn => simp [hdn, hupn]
      | none => simp [hdn, hupn]
  · have hanyg : db.users.any
        (fun u => u.provider == "github" && u.provider_id == toString gh.id) = false :=
      List.any_eq_false.mpr (List.find?_eq_none.mp hg)
    unfold resolve_or_create Db.create_user at h2
    simp only [github_create_user] at h2
    simp only [hg, hanyg, Bool.false_eq_true, if_false, Except.ok.injEq, Prod.mk.injEq] at h2
    obtain ⟨hu, hdb⟩ := h2
    rw [← hu]
    cases hn : gh.name with
    | some n => simp [hn]
    | none => simp [hn]

/-- Witness for C6: fresh accounts created from profiles that exercise the
fallback branches of the username policy. -/
theorem new_account_username_derivation_witness :
    empty_db.find_by_provider_id "microsoft" c6_ms_profile.id = none ∧
    empty_db.find_by_provider_id "github" (toString c6_gh_profile.id) = none ∧
    resolve_or_create empty_db (microsoft_create_user c6_ms_profile) 3 =
      .ok (c6_ms_user, c6_ms_db) ∧
    resolve_or_create empty_db (github_create_user c6_gh_profile) 3 =
      .ok (c6_gh_user, c6_gh_db) ∧
    (c6_ms_user.username = "upn@contoso.example" ∧ c6_gh_user.username = "ninelives") :=
  ⟨rfl, rfl, by decide, by decide,
   new_account_username_derivation empty_db c6_ms_profile c6_gh_profile 3
     c6_ms_user c6_gh_user c6_ms_db c6_gh_db rfl rfl (by decide) (by decide)⟩
